import Mathlib

/-!
Verification of the VCP tower builder (`src/lib/tower.ts`, function `buildTower`).

The builder is a pure function from a parameter record to a list of floor
descriptors.  JavaScript numbers are modelled exactly by rationals for every
value the sanitization stage has already coerced to a finite number; the two
profile-point arrays bypass that stage in the source, so their elements are
modelled by `JSNum`, a rational extended with `NaN` and the two infinities,
with `Math.min` / `Math.max` / arithmetic following ECMAScript semantics
(`NaN` absorbs; `min`/`max` return `NaN` when an argument is `NaN`).
Floating-point rounding and overflow are not modelled: arithmetic is exact.

`Math.sin`, `Math.cos` and `Math.PI` are opaque to every claim checked here,
so they are passed in as an abstract record `JSMath` of rational-valued
functions; all theorems are proved for every such record.
-/

/-- A JavaScript number: a finite value (modelled exactly as a rational),
`NaN`, `+Infinity`, or `-Infinity`. -/
inductive JSNum where
  | fin (q : ℚ)
  | nan
  | pinf
  | ninf
deriving DecidableEq

namespace JSNum

/-- JavaScript addition on `JSNum` (ECMAScript semantics; exact on finite values). -/
def jsAdd : JSNum → JSNum → JSNum
  | nan, _ => nan
  | _, nan => nan
  | fin a, fin b => fin (a + b)
  | pinf, ninf => nan
  | ninf, pinf => nan
  | pinf, _ => pinf
  | _, pinf => pinf
  | ninf, _ => ninf
  | _, ninf => ninf

/-- JavaScript subtraction on `JSNum`. -/
def jsSub : JSNum → JSNum → JSNum
  | nan, _ => nan
  | _, nan => nan
  | fin a, fin b => fin (a - b)
  | pinf, pinf => nan
  | ninf, ninf => nan
  | pinf, _ => pinf
  | ninf, _ => ninf
  | fin _, pinf => ninf
  | fin _, ninf => pinf

/-- JavaScript multiplication on `JSNum` (`0 * Infinity = NaN`). -/
def jsMul : JSNum → JSNum → JSNum
  | nan, _ => nan
  | _, nan => nan
  | fin a, fin b => fin (a * b)
  | pinf, fin b => if 0 < b then pinf else if b < 0 then ninf else nan
  | ninf, fin b => if 0 < b then ninf else if b < 0 then pinf else nan
  | fin a, pinf => if 0 < a then pinf else if a < 0 then ninf else nan
  | fin a, ninf => if 0 < a then ninf else if a < 0 then pinf else nan
  | pinf, pinf => pinf
  | pinf, ninf => ninf
  | ninf, pinf => ninf
  | ninf, ninf => pinf

/-- `Math.max` on two arguments: `NaN` if either argument is `NaN`. -/
def jsMax : JSNum → JSNum → JSNum
  | nan, _ => nan
  | _, nan => nan
  | pinf, _ => pinf
  | _, pinf => pinf
  | ninf, x => x
  | x, ninf => x
  | fin a, fin b => fin (max a b)

/-- `Math.min` on two arguments: `NaN` if either argument is `NaN`. -/
def jsMin : JSNum → JSNum → JSNum
  | nan, _ => nan
  | _, nan => nan
  | ninf, _ => ninf
  | _, ninf => ninf
  | pinf, x => x
  | x, pinf => x
  | fin a, fin b => fin (min a b)

end JSNum

/-- A JavaScript value as it may arrive in a numeric parameter field:
a number, a string (represented by the finite result of `Number(s)` when it
exists, `none` when `Number(s)` is `NaN` or infinite), or anything else
(`undefined`, objects, ...), which `toFiniteNumber` treats uniformly. -/
inductive JSVal where
  | num (x : JSNum)
  | str (parse : Option ℚ)
  | undef
deriving DecidableEq

/-- `toFiniteNumber` from the source: a finite number is kept, a string is
kept when `Number(string)` is finite, everything else falls back. -/
def toFiniteNumber : JSVal → ℚ → ℚ
  | JSVal.num (JSNum.fin q), _ => q
  | JSVal.num _, fallback => fallback
  | JSVal.str (some q), _ => q
  | JSVal.str none, fallback => fallback
  | JSVal.undef, fallback => fallback

/-- A three.js `Color`: three channels, each a rational in the model. -/
structure Color where
  r : ℚ
  g : ℚ
  b : ℚ
deriving DecidableEq

/-- three.js `Color.lerp`: each channel moves by `(target - this) * alpha`. -/
def lerpColor (c d : Color) (alpha : ℚ) : Color :=
  { r := c.r + (d.r - c.r) * alpha
    g := c.g + (d.g - c.g) * alpha
    b := c.b + (d.b - c.b) * alpha }

/-- `lerp` helper from the source: `start + (end - start) * t`. -/
def lerp (s e t : ℚ) : ℚ := s + (e - s) * t

/-- `easeInOut` from the source: `2t²` below `t = 1/2`, `1 - (-2t+2)²/2` otherwise. -/
def easeInOut (t : ℚ) : ℚ :=
  if t < 1/2 then 2 * t * t else 1 - (-2 * t + 2) ^ 2 / 2

/-- `Math.min(Math.max(t, 0), 1)`. -/
def clamp01 (t : ℚ) : ℚ := min (max t 0) 1

/-- three.js `MathUtils.degToRad`: multiply by `π / 180`. -/
def degToRad (pi d : ℚ) : ℚ := d * (pi / 180)

/-- Normalized height of floor `i` among `fc` floors:
`floorCount === 1 ? 1 : i / (floorCount - 1)`. -/
def ratioAt (fc : ℕ) (i : ℕ) : ℚ :=
  if fc = 1 then 1 else (i : ℚ) / ((fc : ℚ) - 1)

/-- Clamp applied to each radius-profile control value:
`Math.min(Math.max(v, 0.25), 2.25)` with JavaScript `NaN` semantics. -/
def clampProfilePoint (x : JSNum) : JSNum :=
  JSNum.jsMin (JSNum.jsMax x (JSNum.fin (1/4))) (JSNum.fin (9/4))

/-- Clamp applied to each floor-profile control value:
`Math.min(Math.max(v, 0.6), 1.4)` with JavaScript `NaN` semantics. -/
def clampFloorProfilePoint (x : JSNum) : JSNum :=
  JSNum.jsMin (JSNum.jsMax x (JSNum.fin (3/5))) (JSNum.fin (7/5))

/-- `lerp` on `JSNum` operands, as the sampler applies it to array elements. -/
def jsLerp (a b : JSNum) (t : ℚ) : JSNum :=
  JSNum.jsAdd a (JSNum.jsMul (JSNum.jsSub b a) (JSNum.fin t))

/-- The piecewise-linear profile sampler from the source (`profileSampler` /
`floorProfileSampler` share this body): clamp `t` into `[0,1]`, scale by
`length - 1`, split into integer index and fractional remainder, and
interpolate between the bracketed pair.  Out-of-range accesses (possible in
the source only for an empty array, which the builder never passes) are
modelled by `List.getD` with default `0`. -/
def sampleProfile (pts : List JSNum) (t : ℚ) : JSNum :=
  if pts.length = 1 then pts.getD 0 (JSNum.fin 0)
  else
    let clamped : ℚ := clamp01 t * ((pts.length : ℚ) - 1)
    let index : ℤ := Int.floor clamped
    let frac : ℚ := clamped - (index : ℚ)
    let a := pts.getD index.toNat (JSNum.fin 0)
    let b := pts.getD (min (index.toNat + 1) (pts.length - 1)) (JSNum.fin 0)
    jsLerp a b frac

/-- The input record of `buildTower`.  Numeric fields carry arbitrary
JavaScript values (the source sanitizes each with `toFiniteNumber`); the two
profile arrays carry raw JavaScript numbers (the source clamps but does not
otherwise sanitize their elements); the gradient endpoints are the parsed
three.js colors (`new Color(string)`); `animate` / `animationSpeed` are not
consumed by the builder and are omitted. -/
structure TowerParameters where
  floorCount : JSVal
  towerHeight : JSVal
  baseRadius : JSVal
  floorThickness : JSVal
  slabSides : JSVal
  scaleMin : JSVal
  scaleMax : JSVal
  twistMin : JSVal
  twistMax : JSVal
  profilePoints : List JSNum
  floorProfilePoints : List JSNum
  gradientStart : Color
  gradientEnd : Color
deriving DecidableEq

/-- One output floor descriptor.  Fields that can only ever hold finite
values in the source (they are built from sanitized scalars and from
`Math.sin` / `Math.cos`, which are finite on finite input) are rationals;
`radius`, `scaleX`, `scaleZ` flow through the unsanitized profile samples
and are `JSNum`. -/
structure Floor where
  index : ℕ
  positionY : ℚ
  rotation : ℚ
  radius : JSNum
  color : Color
  offsetX : ℚ
  offsetZ : ℚ
  scaleX : JSNum
  scaleZ : JSNum
  sides : ℤ
deriving DecidableEq

/-- The output record of `buildTower`. -/
structure Tower where
  floors : List Floor
  slabHeight : ℚ
  height : ℚ
  floorCount : ℕ
  baseRadius : ℚ
  slabSides : ℤ
deriving DecidableEq

/-- The transcendental pieces of the JavaScript `Math` object, abstract in
the model: every theorem below holds for every choice of `sin`, `cos`, `pi`. -/
structure JSMath where
  sin : ℚ → ℚ
  cos : ℚ → ℚ
  pi : ℚ

/-- The sanitized constants `buildTower` computes before its loop. -/
structure Sanitized where
  floorCount : ℕ
  height : ℚ
  baseRadius : ℚ
  floorThickness : ℚ
  slabSides : ℤ
  scaleStart : ℚ
  scaleEnd : ℚ
  twistStart : ℚ
  twistEnd : ℚ
  profilePoints : List JSNum
  floorProfilePoints : List JSNum
  startColor : Color
  endColor : Color
deriving DecidableEq

/-- The sanitization prologue of `buildTower`, line by line: `toFiniteNumber`
coercions with the per-field fallbacks, flooring and clamping, sorting of the
scale and twist ranges, the non-empty-array fallback `[1]` for the two profile
arrays, and the per-element clamps.  `floorCount` is `Math.max(1,
Math.floor(rawFloorCount))`, a positive integer, stored as `ℕ`. -/
def sanitize (params : TowerParameters) : Sanitized :=
  let rawFloorCount := toFiniteNumber params.floorCount 1
  let rawHeight := toFiniteNumber params.towerHeight 40
  let rawRadius := toFiniteNumber params.baseRadius 4
  let rawThickness := toFiniteNumber params.floorThickness (1/2)
  let rawSlabSides := toFiniteNumber params.slabSides 4
  let rawScaleMin := toFiniteNumber params.scaleMin (4/5)
  let rawScaleMax := toFiniteNumber params.scaleMax (6/5)
  let rawTwistMin := toFiniteNumber params.twistMin (-10)
  let rawTwistMax := toFiniteNumber params.twistMax 120
  let rawProfilePoints :=
    if params.profilePoints.isEmpty then [JSNum.fin 1] else params.profilePoints
  let rawFloorProfilePoints :=
    if params.floorProfilePoints.isEmpty then [JSNum.fin 1] else params.floorProfilePoints
  { floorCount := (max 1 (Int.floor rawFloorCount)).toNat
    height := max 1 rawHeight
    baseRadius := max (1/4) rawRadius
    floorThickness := min (max rawThickness (1/10)) 1
    slabSides := min (max (Int.floor rawSlabSides) 3) 48
    scaleStart := min rawScaleMin rawScaleMax
    scaleEnd := max rawScaleMin rawScaleMax
    twistStart := min rawTwistMin rawTwistMax
    twistEnd := max rawTwistMin rawTwistMax
    profilePoints := rawProfilePoints.map clampProfilePoint
    floorProfilePoints := rawFloorProfilePoints.map clampFloorProfilePoint
    startColor := params.gradientStart
    endColor := params.gradientEnd }

/-- The body of the `for` loop of `buildTower` at index `i`, producing one
floor.  The loop-invariant constants (`floorHeight`, `slabHeight`, `yOffset`,
`driftRadius`) are recomputed here from the sanitized record; they match the
source's closure values verbatim. -/
def mkFloor (M : JSMath) (s : Sanitized) (i : ℕ) : Floor :=
  let floorHeight : ℚ := s.height / (s.floorCount : ℚ)
  let slabHeight : ℚ := floorHeight * s.floorThickness
  let yOffset : ℚ := -s.height / 2 + slabHeight / 2
  let driftRadius : ℚ := s.baseRadius * (1/4)
  let rat : ℚ := ratioAt s.floorCount i
  let eased : ℚ := easeInOut rat
  let rotation : ℚ := degToRad M.pi (lerp s.twistStart s.twistEnd eased)
  let radiusScale : JSNum :=
    JSNum.jsMin
      (JSNum.jsMax
        (JSNum.jsMul (JSNum.fin (lerp s.scaleStart s.scaleEnd eased))
          (sampleProfile s.profilePoints eased))
        (JSNum.fin (3/20)))
      (JSNum.fin 3)
  let aspect : JSNum :=
    JSNum.jsMin (JSNum.jsMax (sampleProfile s.floorProfilePoints eased) (JSNum.fin (3/5)))
      (JSNum.fin (7/5))
  let radius : JSNum := JSNum.jsMul (JSNum.fin s.baseRadius) radiusScale
  let color : Color := lerpColor s.startColor s.endColor rat
  let wobble : ℚ := M.sin (rat * M.pi * 2)
  let wobble2 : ℚ := M.cos (rat * M.pi * (3/2) + M.pi / 3)
  let offsetX : ℚ := M.cos rotation * driftRadius * wobble
  let offsetZ : ℚ := M.sin rotation * driftRadius * wobble2
  let scaleX : JSNum := JSNum.jsMul radius aspect
  let scaleZ : JSNum :=
    JSNum.jsMul
      (JSNum.jsMul radius (JSNum.jsMax (JSNum.fin (1/2)) (JSNum.jsSub (JSNum.fin 2) aspect)))
      (JSNum.fin (17/20 + |wobble| * (1/4)))
  { index := i
    positionY := yOffset + (i : ℚ) * floorHeight
    rotation := rotation
    radius := radius
    color := color
    offsetX := offsetX
    offsetZ := offsetZ
    scaleX := scaleX
    scaleZ := scaleZ
    sides := s.slabSides }

/-- The loop and the returned record of `buildTower`, over sanitized values. -/
def buildTowerCore (M : JSMath) (s : Sanitized) : Tower :=
  let floorHeight : ℚ := s.height / (s.floorCount : ℚ)
  let slabHeight : ℚ := floorHeight * s.floorThickness
  { floors := (List.range s.floorCount).map (mkFloor M s)
    slabHeight := slabHeight
    height := s.height
    floorCount := s.floorCount
    baseRadius := s.baseRadius
    slabSides := s.slabSides }

/-- `buildTower` from the source: sanitize, then run the floor loop. -/
def buildTower (M : JSMath) (params : TowerParameters) : Tower :=
  buildTowerCore M (sanitize params)

/-- Default floor used as the `List.getD` fallback in theorem statements;
every access below is proved in-bounds, so its value is irrelevant. -/
def dfltFloor : Floor :=
  { index := 0, positionY := 0, rotation := 0, radius := JSNum.fin 0,
    color := { r := 0, g := 0, b := 0 }, offsetX := 0, offsetZ := 0,
    scaleX := JSNum.fin 0, scaleZ := JSNum.fin 0, sides := 0 }

/-- A concrete instance of the abstract `Math` record, for closed inputs:
`pi` is taken as `180` so that `degToRad` is the identity there. -/
def exM : JSMath := { sin := fun _ => 0, cos := fun _ => 0, pi := 180 }

/-- A parameter record whose numeric fields are all absent (forcing every
documented fallback), with empty profile arrays and a black-to-white ramp. -/
def baseParams : TowerParameters :=
  { floorCount := JSVal.undef, towerHeight := JSVal.undef, baseRadius := JSVal.undef,
    floorThickness := JSVal.undef, slabSides := JSVal.undef, scaleMin := JSVal.undef,
    scaleMax := JSVal.undef, twistMin := JSVal.undef, twistMax := JSVal.undef,
    profilePoints := [], floorProfilePoints := [],
    gradientStart := { r := 0, g := 0, b := 0 }, gradientEnd := { r := 1, g := 1, b := 1 } }

/-- The sanitized floor count is at least one. -/
lemma sanitize_floorCount_pos (p : TowerParameters) : 1 ≤ (sanitize p).floorCount := by
  simp [sanitize]

/-- The sanitized height is at least one. -/
lemma sanitize_height_ge_one (p : TowerParameters) : 1 ≤ (sanitize p).height := by
  simp [sanitize]

/-- The sanitized base radius is at least `1/4`. -/
lemma sanitize_baseRadius_ge (p : TowerParameters) : (1/4 : ℚ) ≤ (sanitize p).baseRadius := by
  simp [sanitize]

/-- The floor list has exactly the sanitized floor count of elements. -/
lemma buildTower_length (M : JSMath) (p : TowerParameters) :
    (buildTower M p).floors.length = (sanitize p).floorCount := by
  simp [buildTower, buildTowerCore]

/-- In-bounds access to the floor list yields the loop body at that index. -/
lemma buildTower_getD (M : JSMath) (p : TowerParameters) {i : ℕ}
    (hi : i < (sanitize p).floorCount) :
    (buildTower M p).floors.getD i dfltFloor = mkFloor M (sanitize p) i := by
  have hlen : i < ((List.range (sanitize p).floorCount).map (mkFloor M (sanitize p))).length := by
    simpa using hi
  show ((List.range (sanitize p).floorCount).map (mkFloor M (sanitize p))).getD i dfltFloor = _
  rw [List.getD_eq_getElem _ _ hlen]
  simp

/-- The vertical position produced by the loop body. -/
lemma mkFloor_positionY (M : JSMath) (s : Sanitized) (i : ℕ) :
    (mkFloor M s i).positionY =
      (-s.height / 2 + s.height / (s.floorCount : ℚ) * s.floorThickness / 2) +
        (i : ℚ) * (s.height / (s.floorCount : ℚ)) := by
  simp [mkFloor]

/-- The color produced by the loop body. -/
lemma mkFloor_color (M : JSMath) (s : Sanitized) (i : ℕ) :
    (mkFloor M s i).color = lerpColor s.startColor s.endColor (ratioAt s.floorCount i) := rfl

/-- The slab height reported by the tower. -/
lemma buildTower_slabHeight (M : JSMath) (p : TowerParameters) :
    (buildTower M p).slabHeight =
      (sanitize p).height / ((sanitize p).floorCount : ℚ) * (sanitize p).floorThickness := rfl

/-- The height reported by the tower is the sanitized height. -/
lemma buildTower_height (M : JSMath) (p : TowerParameters) :
    (buildTower M p).height = (sanitize p).height := rfl

/-- `ratioAt` at index `0` is `0` whenever there is more than one floor. -/
lemma ratioAt_zero {fc : ℕ} (h : 1 < fc) : ratioAt fc 0 = 0 := by
  have : fc ≠ 1 := by omega
  simp [ratioAt, this]

/-- `ratioAt` at the last index is `1` for every positive floor count. -/
lemma ratioAt_last {fc : ℕ} (h : 1 ≤ fc) : ratioAt fc (fc - 1) = 1 := by
  rcases Nat.lt_or_ge fc 2 with h2 | h2
  · have : fc = 1 := by omega
    simp [ratioAt, this]
  · have hne : fc ≠ 1 := by omega
    have hcast : ((fc - 1 : ℕ) : ℚ) = (fc : ℚ) - 1 := by
      push_cast [Nat.cast_sub (by omega : 1 ≤ fc)]
      ring
    have hpos : ((fc : ℚ) - 1) ≠ 0 := by
      have : (2 : ℚ) ≤ (fc : ℚ) := by exact_mod_cast h2
      linarith
    simp [ratioAt, hne, hcast, div_self hpos]

/-- `lerpColor` at `0` returns its first endpoint. -/
lemma lerpColor_zero (c d : Color) : lerpColor c d 0 = c := by
  simp [lerpColor]

/-- `lerpColor` at `1` returns its second endpoint. -/
lemma lerpColor_one (c d : Color) : lerpColor c d 1 = d := by
  cases d
  simp [lerpColor]

/-- Minimum of the non-empty list `q0 :: qs`. -/
def listMin (q0 : ℚ) (qs : List ℚ) : ℚ := qs.foldl min q0

/-- Maximum of the non-empty list `q0 :: qs`. -/
def listMax (q0 : ℚ) (qs : List ℚ) : ℚ := qs.foldl max q0

lemma listMin_le_self (q0 : ℚ) (qs : List ℚ) : listMin q0 qs ≤ q0 := by
  induction qs generalizing q0 with
  | nil => exact le_refl _
  | cons a tl ih =>
      exact le_trans (ih (min q0 a)) (min_le_left _ _)

lemma self_le_listMax (q0 : ℚ) (qs : List ℚ) : q0 ≤ listMax q0 qs := by
  induction qs generalizing q0 with
  | nil => exact le_refl _
  | cons a tl ih =>
      exact le_trans (le_max_left _ _) (ih (max q0 a))

lemma listMin_le_of_mem {x q0 : ℚ} {qs : List ℚ} (hx : x ∈ q0 :: qs) :
    listMin q0 qs ≤ x := by
  induction qs generalizing q0 with
  | nil =>
      rcases List.mem_singleton.mp hx with rfl
      exact le_refl _
  | cons a tl ih =>
      rcases List.mem_cons.mp hx with rfl | hx2
      · exact le_trans (listMin_le_self (min x a) tl) (min_le_left _ _)
      · rcases List.mem_cons.mp hx2 with rfl | hx3
        · exact le_trans (listMin_le_self (min q0 x) tl) (min_le_right _ _)
        · exact ih (List.mem_cons_of_mem _ hx3)

lemma le_listMax_of_mem {x q0 : ℚ} {qs : List ℚ} (hx : x ∈ q0 :: qs) :
    x ≤ listMax q0 qs := by
  induction qs generalizing q0 with
  | nil =>
      rcases List.mem_singleton.mp hx with rfl
      exact le_refl _
  | cons a tl ih =>
      rcases List.mem_cons.mp hx with rfl | hx2
      · exact le_trans (le_max_left _ _) (self_le_listMax (max x a) tl)
      · rcases List.mem_cons.mp hx2 with rfl | hx3
        · exact le_trans (le_max_right _ _) (self_le_listMax (max q0 x) tl)
        · exact ih (List.mem_cons_of_mem _ hx3)

lemma clamp01_nonneg (t : ℚ) : 0 ≤ clamp01 t :=
  le_min (le_max_right _ _) (by norm_num)

lemma clamp01_le_one (t : ℚ) : clamp01 t ≤ 1 := min_le_right _ _

/-- A convex combination `a + (b - a) * t` with `t ∈ [0, 1]` stays between
`a` and `b`. -/
lemma lerp_between (a b t : ℚ) (h0 : 0 ≤ t) (h1 : t ≤ 1) :
    min a b ≤ a + (b - a) * t ∧ a + (b - a) * t ≤ max a b := by
  rcases le_total a b with hab | hab
  · rw [min_eq_left hab, max_eq_right hab]
    constructor <;> nlinarith
  · rw [min_eq_right hab, max_eq_left hab]
    constructor <;> nlinarith

/-- On a one-element array the sampler returns that element for every `t`. -/
lemma sampleProfile_single (x : JSNum) (t : ℚ) : sampleProfile [x] t = x := by
  simp [sampleProfile]

/-- The integer index the sampler computes for an `n`-element array. -/
lemma sample_index_bounds {n : ℕ} (hn : 1 ≤ n) (t : ℚ) :
    0 ≤ Int.floor (clamp01 t * ((n : ℚ) - 1)) ∧
      (Int.floor (clamp01 t * ((n : ℚ) - 1))).toNat ≤ n - 1 := by
  have hn1 : (0 : ℚ) ≤ (n : ℚ) - 1 := by
    have : (1 : ℚ) ≤ (n : ℚ) := by exact_mod_cast hn
    linarith
  have hcl0 : 0 ≤ clamp01 t * ((n : ℚ) - 1) := mul_nonneg (clamp01_nonneg t) hn1
  have hclN : clamp01 t * ((n : ℚ) - 1) ≤ (n : ℚ) - 1 :=
    mul_le_of_le_one_left hn1 (clamp01_le_one t)
  have h2 : Int.floor ((n : ℚ) - 1) = (n : ℤ) - 1 := by
    rw [show ((n : ℚ) - 1) = (((n : ℤ) - 1 : ℤ) : ℚ) by push_cast; ring, Int.floor_intCast]
  have hfl : Int.floor (clamp01 t * ((n : ℚ) - 1)) ≤ (n : ℤ) - 1 :=
    le_trans (Int.floor_le_floor hclN) (le_of_eq h2)
  refine ⟨Int.floor_nonneg.mpr hcl0, ?_⟩
  omega

/-- Unfolding of the sampler on arrays of length other than one. -/
lemma sampleProfile_eq_of_ne_one {pts : List JSNum} (h : ¬ pts.length = 1) (t : ℚ) :
    sampleProfile pts t =
      jsLerp
        (pts.getD (Int.floor (clamp01 t * ((pts.length : ℚ) - 1))).toNat (JSNum.fin 0))
        (pts.getD
          (min ((Int.floor (clamp01 t * ((pts.length : ℚ) - 1))).toNat + 1) (pts.length - 1))
          (JSNum.fin 0))
        (clamp01 t * ((pts.length : ℚ) - 1) -
          ((Int.floor (clamp01 t * ((pts.length : ℚ) - 1)) : ℤ) : ℚ)) := by
  simp only [sampleProfile, if_neg h]

/-- `jsLerp` on finite operands is exact rational interpolation. -/
lemma jsLerp_fin (x y fr : ℚ) :
    jsLerp (JSNum.fin x) (JSNum.fin y) fr = JSNum.fin (x + (y - x) * fr) := rfl

/-- Reading a mapped-to-`JSNum` array in bounds yields the underlying rational. -/
lemma getD_map_fin (l0 : List ℚ) (k : ℕ) (hk : k < l0.length) :
    (l0.map JSNum.fin).getD k (JSNum.fin 0) = JSNum.fin (l0.getD k 0) := by
  rw [List.getD_eq_getElem _ _ (by simpa using hk), List.getD_eq_getElem _ _ hk,
    List.getElem_map]

/-- An in-bounds `getD` read is a member of the list. -/
lemma getD_mem {l0 : List ℚ} {k : ℕ} (hk : k < l0.length) (d : ℚ) :
    l0.getD k d ∈ l0 := by
  rw [List.getD_eq_getElem _ _ hk]
  exact List.getElem_mem _

/-- On a non-empty array of finite values the sampler returns a finite value
lying between the minimum and the maximum of the control values. -/
lemma sampleProfile_map_fin (q0 : ℚ) (qs : List ℚ) (t : ℚ) :
    ∃ r : ℚ, sampleProfile ((q0 :: qs).map JSNum.fin) t = JSNum.fin r ∧
      listMin q0 qs ≤ r ∧ r ≤ listMax q0 qs := by
  rcases qs with _ | ⟨a, tl⟩
  · refine ⟨q0, ?_, le_refl _, le_refl _⟩
    simpa using sampleProfile_single (JSNum.fin q0) t
  · have hne : ¬ ((q0 :: a :: tl).map JSNum.fin).length = 1 := by simp
    have hn1 : 1 ≤ ((q0 :: a :: tl).map JSNum.fin).length := by simp
    obtain ⟨hfl0, hflN⟩ := sample_index_bounds hn1 t
    have hmaplen : ((q0 :: a :: tl).map JSNum.fin).length = (q0 :: a :: tl).length := by simp
    have hilt : (Int.floor (clamp01 t *
        ((((q0 :: a :: tl).map JSNum.fin).length : ℚ) - 1))).toNat <
        (q0 :: a :: tl).length := by
      rw [← hmaplen]
      omega
    have hblt : min ((Int.floor (clamp01 t *
        ((((q0 :: a :: tl).map JSNum.fin).length : ℚ) - 1))).toNat + 1)
        (((q0 :: a :: tl).map JSNum.fin).length - 1) <
        (q0 :: a :: tl).length := by
      rw [← hmaplen]
      omega
    rw [sampleProfile_eq_of_ne_one hne, getD_map_fin _ _ hilt, getD_map_fin _ _ hblt,
      jsLerp_fin]
    have hfr0 : 0 ≤ clamp01 t * ((((q0 :: a :: tl).map JSNum.fin).length : ℚ) - 1) -
        ((Int.floor (clamp01 t *
          ((((q0 :: a :: tl).map JSNum.fin).length : ℚ) - 1)) : ℤ) : ℚ) := by
      have h := Int.floor_le (clamp01 t *
        ((((q0 :: a :: tl).map JSNum.fin).length : ℚ) - 1))
      linarith
    have hfr1 : clamp01 t * ((((q0 :: a :: tl).map JSNum.fin).length : ℚ) - 1) -
        ((Int.floor (clamp01 t *
          ((((q0 :: a :: tl).map JSNum.fin).length : ℚ) - 1)) : ℤ) : ℚ) ≤ 1 := by
      have h := Int.lt_floor_add_one (clamp01 t *
        ((((q0 :: a :: tl).map JSNum.fin).length : ℚ) - 1))
      linarith
    obtain ⟨hmin, hmax⟩ := lerp_between
      ((q0 :: a :: tl).getD (Int.floor (clamp01 t *
        ((((q0 :: a :: tl).map JSNum.fin).length : ℚ) - 1))).toNat 0)
      ((q0 :: a :: tl).getD (min ((Int.floor (clamp01 t *
        ((((q0 :: a :: tl).map JSNum.fin).length : ℚ) - 1))).toNat + 1)
        (((q0 :: a :: tl).map JSNum.fin).length - 1)) 0)
      _ hfr0 hfr1
    refine ⟨_, rfl, ?_, ?_⟩
    · exact le_trans
        (le_min (listMin_le_of_mem (getD_mem hilt 0)) (listMin_le_of_mem (getD_mem hblt 0)))
        hmin
    · exact le_trans hmax
        (max_le (le_listMax_of_mem (getD_mem hilt 0)) (le_listMax_of_mem (getD_mem hblt 0)))

/-- The JavaScript clamp `Math.min(Math.max(·, lo), hi)` is idempotent on
every `JSNum`, `NaN` included. -/
lemma jsClamp_idem (lo hi : ℚ) (hlohi : lo ≤ hi) (x : JSNum) :
    JSNum.jsMin
      (JSNum.jsMax (JSNum.jsMin (JSNum.jsMax x (JSNum.fin lo)) (JSNum.fin hi)) (JSNum.fin lo))
      (JSNum.fin hi) =
    JSNum.jsMin (JSNum.jsMax x (JSNum.fin lo)) (JSNum.fin hi) := by
  cases x with
  | fin q =>
      simp only [JSNum.jsMax, JSNum.jsMin]
      have h1 : lo ≤ min (max q lo) hi := le_min (le_max_right _ _) hlohi
      rw [max_eq_left h1, min_assoc, min_self]
  | nan => rfl
  | pinf =>
      simp only [JSNum.jsMax, JSNum.jsMin]
      rw [max_eq_left hlohi, min_self]
  | ninf =>
      simp only [JSNum.jsMax, JSNum.jsMin]
      rw [min_eq_left hlohi, max_self, min_eq_left hlohi]

/-- Idempotence of the radius-profile clamp. -/
lemma clampProfilePoint_idem (x : JSNum) :
    clampProfilePoint (clampProfilePoint x) = clampProfilePoint x :=
  jsClamp_idem (1/4) (9/4) (by norm_num) x

/-- Idempotence of the floor-profile clamp. -/
lemma clampFloorProfilePoint_idem (x : JSNum) :
    clampFloorProfilePoint (clampFloorProfilePoint x) = clampFloorProfilePoint x :=
  jsClamp_idem (3/5) (7/5) (by norm_num) x

/-- The radius-profile clamp returns a finite value on every non-`NaN` input. -/
lemma clampProfilePoint_fin {x : JSNum} (hx : x ≠ JSNum.nan) :
    ∃ q : ℚ, clampProfilePoint x = JSNum.fin q := by
  cases x with
  | fin q => exact ⟨min (max q (1/4)) (9/4), rfl⟩
  | nan => exact absurd rfl hx
  | pinf => exact ⟨9/4, rfl⟩
  | ninf => exact ⟨min (1/4) (9/4), rfl⟩

/-- A list of finite values is the `JSNum.fin` image of a rational list. -/
lemma exists_map_fin {l : List JSNum} (h : ∀ x ∈ l, ∃ q : ℚ, x = JSNum.fin q) :
    ∃ ql : List ℚ, l = ql.map JSNum.fin := by
  induction l with
  | nil => exact ⟨[], rfl⟩
  | cons x tl ih =>
      obtain ⟨q, hq⟩ := h x (List.mem_cons_self _ _)
      obtain ⟨ql, hql⟩ := ih (fun y hy => h y (List.mem_cons_of_mem _ hy))
      exact ⟨q :: ql, by rw [List.map_cons, ← hq, ← hql]⟩

/-- When the raw radius-profile array carries no `NaN`, the sanitized array is
a non-empty array of finite values. -/
lemma sanitize_profilePoints_fin (p : TowerParameters)
    (hnn : ∀ x ∈ p.profilePoints, x ≠ JSNum.nan) :
    ∃ (q0 : ℚ) (qs : List ℚ),
      (sanitize p).profilePoints = (q0 :: qs).map JSNum.fin := by
  have hsan : (sanitize p).profilePoints =
      (if p.profilePoints.isEmpty then [JSNum.fin 1] else p.profilePoints).map
        clampProfilePoint := rfl
  by_cases hemp : p.profilePoints.isEmpty
  · refine ⟨1, [], ?_⟩
    rw [hsan, if_pos hemp]
    simp [clampProfilePoint, JSNum.jsMax, JSNum.jsMin]
    norm_num
  · have hfin : ∀ x ∈ (if p.profilePoints.isEmpty then [JSNum.fin 1]
        else p.profilePoints).map clampProfilePoint, ∃ q : ℚ, x = JSNum.fin q := by
      intro x hx
      rw [if_neg hemp] at hx
      obtain ⟨y, hy, hyx⟩ := List.mem_map.mp hx
      obtain ⟨q, hq⟩ := clampProfilePoint_fin (hnn y hy)
      exact ⟨q, by rw [← hyx, hq]⟩
    obtain ⟨ql, hql⟩ := exists_map_fin hfin
    rcases ql with _ | ⟨q0, qs⟩
    · exfalso
      rw [if_neg hemp] at hql
      have : p.profilePoints = [] := by simpa using hql
      exact hemp (by simp [this])
    · exact ⟨q0, qs, by rw [hsan, hql]⟩

/-- Claim C2: `buildTower(params).floors` has length `max(1, floor(c))`, where
`c` is `params.floorCount` coerced to a finite number with fallback `1`. -/
theorem claim_C2 (M : JSMath) (p : TowerParameters) :
    (buildTower M p).floors.length =
      (max 1 (Int.floor (toFiniteNumber p.floorCount 1))).toNat := by
  rw [buildTower_length]
  rfl

/-- Claim C1, amended: the bottom floor sits at `-height/2 + slabHeight/2`;
the top floor sits at `-height/2 + slabHeight/2 + (floorCount-1)*floorHeight`
(which is `height/2 - floorHeight + slabHeight/2`, not `height/2 -
slabHeight/2` unless `floorThickness = 1`); for `floorCount = 1` the single
floor sits at `-height/2 + slabHeight/2` (which is `0` only when
`floorThickness = 1`), the bottom and top statements coinciding. -/
theorem claim_C1_amended (M : JSMath) (p : TowerParameters) :
    ((buildTower M p).floors.getD 0 dfltFloor).positionY =
      -(buildTower M p).height / 2 + (buildTower M p).slabHeight / 2 ∧
    ((buildTower M p).floors.getD ((buildTower M p).floorCount - 1) dfltFloor).positionY =
      -(buildTower M p).height / 2 + (buildTower M p).slabHeight / 2 +
        (((buildTower M p).floorCount - 1 : ℕ) : ℚ) *
          ((buildTower M p).height / ((buildTower M p).floorCount : ℚ)) := by
  have hfc := sanitize_floorCount_pos p
  constructor
  · rw [buildTower_getD M p (by omega), mkFloor_positionY]
    show -(sanitize p).height / 2 +
        (sanitize p).height / ((sanitize p).floorCount : ℚ) * (sanitize p).floorThickness / 2 +
        ((0 : ℕ) : ℚ) * ((sanitize p).height / ((sanitize p).floorCount : ℚ)) =
      -(sanitize p).height / 2 +
        (sanitize p).height / ((sanitize p).floorCount : ℚ) * (sanitize p).floorThickness / 2
    push_cast
    ring
  · have hlt : (buildTower M p).floorCount - 1 < (sanitize p).floorCount := by
      have : (buildTower M p).floorCount = (sanitize p).floorCount := rfl
      omega
    rw [buildTower_getD M p hlt, mkFloor_positionY]
    rfl

/-- Input exercising a one-floor tower with the height and thickness of the
specification's own worked example (`height = 40`, `floorThickness = 0.5`). -/
def pC1a : TowerParameters :=
  { baseParams with
    floorCount := JSVal.num (JSNum.fin 1)
    towerHeight := JSVal.num (JSNum.fin 40)
    floorThickness := JSVal.num (JSNum.fin (1/2)) }

/-- The same input with two floors. -/
def pC1b : TowerParameters := { pC1a with floorCount := JSVal.num (JSNum.fin 2) }

/-- Claim C1 is false as stated: with `floorCount = 1, height = 40,
floorThickness = 0.5` the single floor sits at `-10`, not `0`; and with
`floorCount = 2` the top floor sits at `5`, not `height/2 - slabHeight/2 = 15`. -/
theorem claim_C1_counterexample :
    (sanitize pC1a).floorCount = 1 ∧
    ((buildTower exM pC1a).floors.getD 0 dfltFloor).positionY ≠ 0 ∧
    1 < (sanitize pC1b).floorCount ∧
    ((buildTower exM pC1b).floors.getD ((sanitize pC1b).floorCount - 1) dfltFloor).positionY ≠
      (buildTower exM pC1b).height / 2 - (buildTower exM pC1b).slabHeight / 2 := by
  have e1 : (sanitize pC1a).floorCount = 1 := by
    norm_num [sanitize, toFiniteNumber, pC1a, baseParams]
  have e2 : (sanitize pC1b).floorCount = 2 := by
    simp [sanitize, toFiniteNumber, pC1b, pC1a, baseParams]
  have hh1 : (sanitize pC1a).height = 40 := by
    norm_num [sanitize, toFiniteNumber, pC1a, baseParams]
  have hth1 : (sanitize pC1a).floorThickness = 1/2 := by
    norm_num [sanitize, toFiniteNumber, pC1a, baseParams]
  have hh2 : (sanitize pC1b).height = 40 := by
    norm_num [sanitize, toFiniteNumber, pC1b, pC1a, baseParams]
  have hth2 : (sanitize pC1b).floorThickness = 1/2 := by
    norm_num [sanitize, toFiniteNumber, pC1b, pC1a, baseParams]
  refine ⟨e1, ?_, by omega, ?_⟩
  · rw [buildTower_getD exM pC1a (by omega), mkFloor_positionY, hh1, hth1, e1]
    norm_num
  · rw [buildTower_getD exM pC1b (by omega), mkFloor_positionY, buildTower_height,
      buildTower_slabHeight, hh2, hth2, e2]
    norm_num

/-- Input for the color counterexample: one floor, distinct gradient endpoints. -/
def pC3 : TowerParameters := { baseParams with floorCount := JSVal.num (JSNum.fin 1) }

/-- Claim C3 is false as stated: when the sanitized `floorCount` is `1` the
loop uses `ratio = 1`, so the single floor (index `0`) is painted
`gradientEnd`, not `gradientStart`. -/
theorem claim_C3_counterexample :
    (sanitize pC3).floorCount = 1 ∧
    ((buildTower exM pC3).floors.getD 0 dfltFloor).color ≠ pC3.gradientStart := by
  have e1 : (sanitize pC3).floorCount = 1 := by
    norm_num [sanitize, toFiniteNumber, pC3, baseParams]
  have hr : ratioAt (sanitize pC3).floorCount 0 = 1 := by rw [e1]; simp [ratioAt]
  refine ⟨e1, ?_⟩
  rw [buildTower_getD exM pC3 (by omega), mkFloor_color, hr, lerpColor_one]
  show pC3.gradientEnd = pC3.gradientStart → False
  intro h
  rw [show pC3.gradientEnd = baseParams.gradientEnd from rfl,
    show pC3.gradientStart = baseParams.gradientStart from rfl] at h
  simp [baseParams] at h

/-- Claim C3, amended: when the sanitized `floorCount` exceeds `1`, floor `0`
is colored exactly `gradientStart`; the floor at index `floorCount - 1` is
colored exactly `gradientEnd` for every floor count — in particular for
`floorCount = 1` the single floor receives `gradientEnd`. -/
theorem claim_C3_amended (M : JSMath) (p : TowerParameters) :
    (1 < (sanitize p).floorCount →
      ((buildTower M p).floors.getD 0 dfltFloor).color = p.gradientStart) ∧
    ((buildTower M p).floors.getD ((sanitize p).floorCount - 1) dfltFloor).color =
      p.gradientEnd := by
  have hfc := sanitize_floorCount_pos p
  constructor
  · intro h
    rw [buildTower_getD M p (by omega), mkFloor_color, ratioAt_zero h, lerpColor_zero]
    rfl
  · rw [buildTower_getD M p (by omega), mkFloor_color, ratioAt_last hfc, lerpColor_one]
    rfl

/-- Three-floor input witnessing the amended color claim. -/
def pW3 : TowerParameters := { baseParams with floorCount := JSVal.num (JSNum.fin 3) }

/-- Witness for the amended claim C3 at a three-floor input. -/
theorem claim_C3_witness :
    ((buildTower exM pW3).floors.getD 0 dfltFloor).color = pW3.gradientStart ∧
    ((buildTower exM pW3).floors.getD ((sanitize pW3).floorCount - 1) dfltFloor).color =
      pW3.gradientEnd :=
  ⟨(claim_C3_amended exM pW3).1 (by decide), (claim_C3_amended exM pW3).2⟩

/-- Claim C6: `positionY` is strictly increasing in the floor index. -/
theorem claim_C6 (M : JSMath) (p : TowerParameters) (i j : ℕ) (hij : i < j)
    (hj : j < (buildTower M p).floors.length) :
    ((buildTower M p).floors.getD i dfltFloor).positionY <
      ((buildTower M p).floors.getD j dfltFloor).positionY := by
  rw [buildTower_length] at hj
  rw [buildTower_getD M p (lt_trans hij hj), buildTower_getD M p hj,
    mkFloor_positionY, mkFloor_positionY]
  have hfc := sanitize_floorCount_pos p
  have hh := sanitize_height_ge_one p
  have hfH : 0 < (sanitize p).height / ((sanitize p).floorCount : ℚ) :=
    div_pos (by linarith) (by exact_mod_cast hfc)
  have hij2 : (i : ℚ) < (j : ℚ) := by exact_mod_cast hij
  exact add_lt_add_left (mul_lt_mul_of_pos_right hij2 hfH) _

/-- Two-floor input witnessing the monotonicity claim. -/
def pW6 : TowerParameters := { baseParams with floorCount := JSVal.num (JSNum.fin 2) }

/-- Witness for claim C6 at a two-floor input. -/
theorem claim_C6_witness :
    ((buildTower exM pW6).floors.getD 0 dfltFloor).positionY <
      ((buildTower exM pW6).floors.getD 1 dfltFloor).positionY :=
  claim_C6 exM pW6 0 1 (by decide) (by decide)

/-- The rotation produced by the loop body. -/
lemma mkFloor_rotation (M : JSMath) (s : Sanitized) (i : ℕ) :
    (mkFloor M s i).rotation =
      degToRad M.pi (lerp s.twistStart s.twistEnd (easeInOut (ratioAt s.floorCount i))) := rfl

/-- The radius produced by the loop body. -/
lemma mkFloor_radius (M : JSMath) (s : Sanitized) (i : ℕ) :
    (mkFloor M s i).radius =
      JSNum.jsMul (JSNum.fin s.baseRadius)
        (JSNum.jsMin
          (JSNum.jsMax
            (JSNum.jsMul
              (JSNum.fin (lerp s.scaleStart s.scaleEnd (easeInOut (ratioAt s.floorCount i))))
              (sampleProfile s.profilePoints (easeInOut (ratioAt s.floorCount i))))
            (JSNum.fin (3/20)))
          (JSNum.fin 3)) := rfl

/-- The X scale produced by the loop body. -/
lemma mkFloor_scaleX (M : JSMath) (s : Sanitized) (i : ℕ) :
    (mkFloor M s i).scaleX =
      JSNum.jsMul (mkFloor M s i).radius
        (JSNum.jsMin
          (JSNum.jsMax (sampleProfile s.floorProfilePoints (easeInOut (ratioAt s.floorCount i)))
            (JSNum.fin (3/5)))
          (JSNum.fin (7/5))) := rfl

/-- The Z scale produced by the loop body. -/
lemma mkFloor_scaleZ (M : JSMath) (s : Sanitized) (i : ℕ) :
    (mkFloor M s i).scaleZ =
      JSNum.jsMul
        (JSNum.jsMul (mkFloor M s i).radius
          (JSNum.jsMax (JSNum.fin (1/2))
            (JSNum.jsSub (JSNum.fin 2)
              (JSNum.jsMin
                (JSNum.jsMax
                  (sampleProfile s.floorProfilePoints (easeInOut (ratioAt s.floorCount i)))
                  (JSNum.fin (3/5)))
                (JSNum.fin (7/5))))))
        (JSNum.fin (17/20 + |M.sin (ratioAt s.floorCount i * M.pi * 2)| * (1/4))) := rfl

/-- `NaN` absorbs under multiplication, from either side. -/
lemma jsMul_nan_left (x : JSNum) : JSNum.jsMul JSNum.nan x = JSNum.nan := by
  cases x <;> rfl

lemma jsMul_nan_right (x : JSNum) : JSNum.jsMul x JSNum.nan = JSNum.nan := by
  cases x <;> rfl

/-- The input with its `twistMin` / `twistMax` values exchanged. -/
def swapTwist (p : TowerParameters) : TowerParameters :=
  { p with twistMin := p.twistMax, twistMax := p.twistMin }

/-- The input with its `scaleMin` / `scaleMax` values exchanged. -/
def swapScale (p : TowerParameters) : TowerParameters :=
  { p with scaleMin := p.scaleMax, scaleMax := p.scaleMin }

/-- When both twist fields hold finite numbers, sanitization is insensitive
to their exchange (the `min`/`max` normalization absorbs it). -/
lemma sanitize_swapTwist (p : TowerParameters) {a b : ℚ}
    (ha : p.twistMin = JSVal.num (JSNum.fin a)) (hb : p.twistMax = JSVal.num (JSNum.fin b)) :
    sanitize (swapTwist p) = sanitize p := by
  simp [sanitize, swapTwist, ha, hb, toFiniteNumber, min_comm, max_comm]

/-- When both scale fields hold finite numbers, sanitization is insensitive
to their exchange. -/
lemma sanitize_swapScale (p : TowerParameters) {a b : ℚ}
    (ha : p.scaleMin = JSVal.num (JSNum.fin a)) (hb : p.scaleMax = JSVal.num (JSNum.fin b)) :
    sanitize (swapScale p) = sanitize p := by
  simp [sanitize, swapScale, ha, hb, toFiniteNumber, min_comm, max_comm]

/-- Claim C5, amended: exchanging `twistMin`/`twistMax` (or
`scaleMin`/`scaleMax`) leaves the built tower unchanged provided both
exchanged fields hold finite numbers; the `NaN`/absent case fails because the
two fields have different sanitization fallbacks (-10/120 and 0.8/1.2). -/
theorem claim_C5_amended (M : JSMath) (p : TowerParameters) :
    ((∃ a : ℚ, p.twistMin = JSVal.num (JSNum.fin a)) →
      (∃ b : ℚ, p.twistMax = JSVal.num (JSNum.fin b)) →
      buildTower M (swapTwist p) = buildTower M p) ∧
    ((∃ a : ℚ, p.scaleMin = JSVal.num (JSNum.fin a)) →
      (∃ b : ℚ, p.scaleMax = JSVal.num (JSNum.fin b)) →
      buildTower M (swapScale p) = buildTower M p) := by
  constructor
  · rintro ⟨a, ha⟩ ⟨b, hb⟩
    unfold buildTower
    rw [sanitize_swapTwist p ha hb]
  · rintro ⟨a, ha⟩ ⟨b, hb⟩
    unfold buildTower
    rw [sanitize_swapScale p ha hb]

/-- Input with a `NaN` `twistMin`: its sanitization fallback (-10) differs
from `twistMax`'s (120), so exchanging the two fields changes the tower. -/
def pC5 : TowerParameters :=
  { baseParams with
    floorCount := JSVal.num (JSNum.fin 1)
    twistMin := JSVal.num JSNum.nan
    twistMax := JSVal.num (JSNum.fin 50) }

/-- Claim C5 is false as stated: with `twistMin = NaN, twistMax = 50`,
the unswapped build uses the twist range `[-10, 50]` but the swapped build
uses `[50, 120]`, so the rotations differ. -/
theorem claim_C5_counterexample :
    buildTower exM (swapTwist pC5) ≠ buildTower exM pC5 := by
  have hfc : (sanitize pC5).floorCount = 1 := by
    norm_num [sanitize, toFiniteNumber, pC5, baseParams]
  have hfc2 : (sanitize (swapTwist pC5)).floorCount = 1 := by
    norm_num [sanitize, toFiniteNumber, swapTwist, pC5, baseParams]
  have h1 : ((buildTower exM pC5).floors.getD 0 dfltFloor).rotation = 50 := by
    rw [buildTower_getD exM pC5 (by omega), mkFloor_rotation, hfc]
    have ht1 : (sanitize pC5).twistStart = -10 := by
      norm_num [sanitize, toFiniteNumber, pC5, baseParams]
    have ht2 : (sanitize pC5).twistEnd = 50 := by
      norm_num [sanitize, toFiniteNumber, pC5, baseParams]
    rw [ht1, ht2]
    norm_num [ratioAt, easeInOut, lerp, degToRad, exM]
  have h2 : ((buildTower exM (swapTwist pC5)).floors.getD 0 dfltFloor).rotation = 120 := by
    rw [buildTower_getD exM (swapTwist pC5) (by omega), mkFloor_rotation, hfc2]
    have ht1 : (sanitize (swapTwist pC5)).twistStart = 50 := by
      norm_num [sanitize, toFiniteNumber, swapTwist, pC5, baseParams]
    have ht2 : (sanitize (swapTwist pC5)).twistEnd = 120 := by
      norm_num [sanitize, toFiniteNumber, swapTwist, pC5, baseParams]
    rw [ht1, ht2]
    norm_num [ratioAt, easeInOut, lerp, degToRad, exM]
  intro h
  rw [h] at h2
  rw [h1] at h2
  norm_num at h2

/-- Input with finite values in all four exchanged fields. -/
def pW5 : TowerParameters :=
  { baseParams with
    twistMin := JSVal.num (JSNum.fin 30)
    twistMax := JSVal.num (JSNum.fin 20)
    scaleMin := JSVal.num (JSNum.fin 2)
    scaleMax := JSVal.num (JSNum.fin 1) }

/-- Witness for the amended claim C5 at finite twist and scale bounds. -/
theorem claim_C5_witness :
    buildTower exM (swapTwist pW5) = buildTower exM pW5 ∧
    buildTower exM (swapScale pW5) = buildTower exM pW5 :=
  ⟨(claim_C5_amended exM pW5).1 ⟨30, rfl⟩ ⟨20, rfl⟩,
   (claim_C5_amended exM pW5).2 ⟨2, rfl⟩ ⟨1, rfl⟩⟩

/-- The input with each profile control value replaced by its clamp. -/
def clampParams (p : TowerParameters) : TowerParameters :=
  { p with
    profilePoints := p.profilePoints.map clampProfilePoint
    floorProfilePoints := p.floorProfilePoints.map clampFloorProfilePoint }

/-- Pre-clamping a profile array commutes with the sanitization stage,
because the per-element clamp is idempotent (also on `NaN` and infinities). -/
lemma map_clamp_sanitize (cl : JSNum → JSNum) (hid : ∀ x, cl (cl x) = cl x)
    (l : List JSNum) :
    (if l = [] then [JSNum.fin 1] else l.map cl).map cl =
      (if l = [] then [JSNum.fin 1] else l).map cl := by
  by_cases h : l = []
  · simp [h]
  · rw [if_neg h, if_neg h, List.map_map]
    exact List.map_congr_left fun a _ => hid a

/-- Claim C9: clamping every profile control value into its documented range
before the call leaves the built tower unchanged. -/
theorem claim_C9 (M : JSMath) (p : TowerParameters) :
    buildTower M (clampParams p) = buildTower M p := by
  unfold buildTower
  congr 1
  simp [sanitize, clampParams]
  exact ⟨map_clamp_sanitize clampProfilePoint clampProfilePoint_idem p.profilePoints,
    map_clamp_sanitize clampFloorProfilePoint clampFloorProfilePoint_idem
      p.floorProfilePoints⟩

/-- Claim C8: rotation is `degToRad(lerp(twistLow, twistHigh, eased))` where
`eased` is the source's ease (`2t²` below `1/2`, `1 - (-2t+2)²/2` above),
while the color of the same floor interpolates at the raw ratio, not the
eased one. -/
theorem claim_C8 (M : JSMath) (p : TowerParameters) (i : ℕ)
    (hi : i < (buildTower M p).floors.length) :
    ((buildTower M p).floors.getD i dfltFloor).rotation =
      degToRad M.pi (lerp (sanitize p).twistStart (sanitize p).twistEnd
        (if ratioAt (sanitize p).floorCount i < 1/2
          then 2 * ratioAt (sanitize p).floorCount i * ratioAt (sanitize p).floorCount i
          else 1 - (-2 * ratioAt (sanitize p).floorCount i + 2) ^ 2 / 2)) ∧
    ((buildTower M p).floors.getD i dfltFloor).color =
      lerpColor p.gradientStart p.gradientEnd (ratioAt (sanitize p).floorCount i) := by
  rw [buildTower_length] at hi
  rw [buildTower_getD M p hi]
  exact ⟨rfl, rfl⟩

/-- Witness for claim C8 at the all-defaults input and floor index `0`. -/
theorem claim_C8_witness :
    ((buildTower exM baseParams).floors.getD 0 dfltFloor).rotation =
      degToRad exM.pi (lerp (sanitize baseParams).twistStart (sanitize baseParams).twistEnd
        (if ratioAt (sanitize baseParams).floorCount 0 < 1/2
          then 2 * ratioAt (sanitize baseParams).floorCount 0 *
            ratioAt (sanitize baseParams).floorCount 0
          else 1 - (-2 * ratioAt (sanitize baseParams).floorCount 0 + 2) ^ 2 / 2)) ∧
    ((buildTower exM baseParams).floors.getD 0 dfltFloor).color =
      lerpColor baseParams.gradientStart baseParams.gradientEnd
        (ratioAt (sanitize baseParams).floorCount 0) :=
  claim_C8 exM baseParams 0
    (by rw [buildTower_length]; exact sanitize_floorCount_pos baseParams)

/-- Claim C10: the piecewise-linear sampler is total and in-bounds — on a
non-empty array its two accessed indices are valid for every real `t`, the
result is a finite value between the minimum and the maximum of the control
values, and on a one-element array it returns that element. -/
theorem claim_C10 (q0 : ℚ) (qs : List ℚ) (t : ℚ) :
    (Int.floor (clamp01 t * (((qs.length + 1 : ℕ) : ℚ) - 1))).toNat < qs.length + 1 ∧
    min ((Int.floor (clamp01 t * (((qs.length + 1 : ℕ) : ℚ) - 1))).toNat + 1) qs.length <
      qs.length + 1 ∧
    (∃ r : ℚ, sampleProfile ((q0 :: qs).map JSNum.fin) t = JSNum.fin r ∧
      listMin q0 qs ≤ r ∧ r ≤ listMax q0 qs) ∧
    (qs = [] → sampleProfile ((q0 :: qs).map JSNum.fin) t = JSNum.fin q0) := by
  obtain ⟨h0, hN⟩ := sample_index_bounds (show 1 ≤ qs.length + 1 by omega) t
  refine ⟨by omega, by omega, sampleProfile_map_fin q0 qs t, ?_⟩
  intro h
  subst h
  simpa using sampleProfile_single (JSNum.fin q0) t

/-- Witness for claim C10 on the one-element array `[4]` at `t = 1/3`. -/
theorem claim_C10_witness :
    (Int.floor (clamp01 (1/3) * (((List.length ([] : List ℚ) + 1 : ℕ) : ℚ) - 1))).toNat <
      List.length ([] : List ℚ) + 1 ∧
    min ((Int.floor (clamp01 (1/3) *
        (((List.length ([] : List ℚ) + 1 : ℕ) : ℚ) - 1))).toNat + 1)
      (List.length ([] : List ℚ)) < List.length ([] : List ℚ) + 1 ∧
    (∃ r : ℚ, sampleProfile ((4 :: ([] : List ℚ)).map JSNum.fin) (1/3) = JSNum.fin r ∧
      listMin 4 ([] : List ℚ) ≤ r ∧ r ≤ listMax 4 ([] : List ℚ)) ∧
    (([] : List ℚ) = [] → sampleProfile ((4 :: ([] : List ℚ)).map JSNum.fin) (1/3) =
      JSNum.fin 4) :=
  claim_C10 4 [] (1/3)

/-- Claim C7, amended: whenever the supplied `profilePoints` contain no
`NaN`, every floor's radius equals `baseRadius * radiusScale` with
`radiusScale = clamp(lerp(scaleLow, scaleHigh, eased) * profileSample, 0.15,
3)`, and hence lies in `[0.15 * baseRadius, 3 * baseRadius]`.  The unamended
claim fails when a profile control value is `NaN`, which survives the clamp
and makes the radius `NaN`. -/
theorem claim_C7_amended (M : JSMath) (p : TowerParameters) (i : ℕ)
    (hi : i < (buildTower M p).floors.length)
    (hnn : ∀ x ∈ p.profilePoints, x ≠ JSNum.nan) :
    ∃ s : ℚ,
      sampleProfile (sanitize p).profilePoints
        (easeInOut (ratioAt (sanitize p).floorCount i)) = JSNum.fin s ∧
      ((buildTower M p).floors.getD i dfltFloor).radius =
        JSNum.fin ((sanitize p).baseRadius *
          min (max (lerp (sanitize p).scaleStart (sanitize p).scaleEnd
              (easeInOut (ratioAt (sanitize p).floorCount i)) * s) (3/20)) 3) ∧
      (3/20) * (sanitize p).baseRadius ≤
        (sanitize p).baseRadius *
          min (max (lerp (sanitize p).scaleStart (sanitize p).scaleEnd
              (easeInOut (ratioAt (sanitize p).floorCount i)) * s) (3/20)) 3 ∧
      (sanitize p).baseRadius *
          min (max (lerp (sanitize p).scaleStart (sanitize p).scaleEnd
              (easeInOut (ratioAt (sanitize p).floorCount i)) * s) (3/20)) 3 ≤
        3 * (sanitize p).baseRadius := by
  rw [buildTower_length] at hi
  obtain ⟨q0, qs, hpp⟩ := sanitize_profilePoints_fin p hnn
  obtain ⟨s, hs, hsmin, hsmax⟩ := sampleProfile_map_fin q0 qs
    (easeInOut (ratioAt (sanitize p).floorCount i))
  have hbr : 0 < (sanitize p).baseRadius :=
    lt_of_lt_of_le (by norm_num) (sanitize_baseRadius_ge p)
  refine ⟨s, ?_, ?_, ?_, ?_⟩
  · rw [hpp]
    exact hs
  · rw [buildTower_getD M p hi, mkFloor_radius, hpp, hs]
    simp [JSNum.jsMul, JSNum.jsMax, JSNum.jsMin]
  · have h1 : (3/20 : ℚ) ≤ min (max (lerp (sanitize p).scaleStart (sanitize p).scaleEnd
        (easeInOut (ratioAt (sanitize p).floorCount i)) * s) (3/20)) 3 :=
      le_min (le_max_right _ _) (by norm_num)
    nlinarith [h1, hbr]
  · have h2 : min (max (lerp (sanitize p).scaleStart (sanitize p).scaleEnd
        (easeInOut (ratioAt (sanitize p).floorCount i)) * s) (3/20)) 3 ≤ 3 :=
      min_le_right _ _
    nlinarith [h2, hbr]

/-- Witness for the amended claim C7 at the all-defaults input (whose profile
array is empty, hence `NaN`-free) and floor index `0`. -/
theorem claim_C7_witness :
    ∃ s : ℚ,
      sampleProfile (sanitize baseParams).profilePoints
        (easeInOut (ratioAt (sanitize baseParams).floorCount 0)) = JSNum.fin s ∧
      ((buildTower exM baseParams).floors.getD 0 dfltFloor).radius =
        JSNum.fin ((sanitize baseParams).baseRadius *
          min (max (lerp (sanitize baseParams).scaleStart (sanitize baseParams).scaleEnd
              (easeInOut (ratioAt (sanitize baseParams).floorCount 0)) * s) (3/20)) 3) ∧
      (3/20) * (sanitize baseParams).baseRadius ≤
        (sanitize baseParams).baseRadius *
          min (max (lerp (sanitize baseParams).scaleStart (sanitize baseParams).scaleEnd
              (easeInOut (ratioAt (sanitize baseParams).floorCount 0)) * s) (3/20)) 3 ∧
      (sanitize baseParams).baseRadius *
          min (max (lerp (sanitize baseParams).scaleStart (sanitize baseParams).scaleEnd
              (easeInOut (ratioAt (sanitize baseParams).floorCount 0)) * s) (3/20)) 3 ≤
        3 * (sanitize baseParams).baseRadius :=
  claim_C7_amended exM baseParams 0
    (by rw [buildTower_length]; exact sanitize_floorCount_pos baseParams)
    (by simp [baseParams])

/-- Input whose radius-profile array is `[NaN, NaN]`. -/
def pC7 : TowerParameters := { baseParams with profilePoints := [JSNum.nan, JSNum.nan] }

/-- Claim C7 is false as stated: with `profilePoints = [NaN, NaN]` the
sampled profile value is `NaN`, the clamp `Math.min(Math.max(·, 0.15), 3)`
passes it through, and the floor radius is `NaN` — in particular no rational
radius inside `[0.15 * baseRadius, 3 * baseRadius]` exists. -/
theorem claim_C7_counterexample :
    ¬ ∃ q : ℚ, ((buildTower exM pC7).floors.getD 0 dfltFloor).radius = JSNum.fin q ∧
      (3/20) * (sanitize pC7).baseRadius ≤ q ∧ q ≤ 3 * (sanitize pC7).baseRadius := by
  have hfc : (sanitize pC7).floorCount = 1 := by
    norm_num [sanitize, toFiniteNumber, pC7, baseParams]
  have hpp : (sanitize pC7).profilePoints = [JSNum.nan, JSNum.nan] := by
    simp [sanitize, pC7, baseParams, clampProfilePoint, JSNum.jsMax, JSNum.jsMin]
  have hs : sampleProfile [JSNum.nan, JSNum.nan]
      (easeInOut (ratioAt (sanitize pC7).floorCount 0)) = JSNum.nan := by
    rw [sampleProfile_eq_of_ne_one (by norm_num)]
    norm_num [hfc, ratioAt, easeInOut, clamp01, jsLerp, JSNum.jsAdd, JSNum.jsMul,
      JSNum.jsSub, List.getD]
  have hrad : ((buildTower exM pC7).floors.getD 0 dfltFloor).radius = JSNum.nan := by
    rw [buildTower_getD exM pC7 (by omega), mkFloor_radius, hpp, hs]
    simp [JSNum.jsMul, JSNum.jsMax, JSNum.jsMin]
  rintro ⟨q, hq, -, -⟩
  rw [hrad] at hq
  exact JSNum.noConfusion hq

/-- Input whose radius-profile array is the single value `NaN`. -/
def pC4 : TowerParameters := { baseParams with profilePoints := [JSNum.nan] }

/-- Claim C4 fails on the code: a `NaN` profile control value survives the
per-element clamp (JavaScript `Math.min`/`Math.max` return `NaN` on `NaN`)
and propagates into `radius`, `scaleX` and `scaleZ`, which are then neither
finite nor positive, while the spec promises malformed inputs never
propagate `NaN`. -/
theorem claim_C4_eval :
    ((buildTower exM pC4).floors.getD 0 dfltFloor).radius = JSNum.nan ∧
    ((buildTower exM pC4).floors.getD 0 dfltFloor).scaleX = JSNum.nan ∧
    ((buildTower exM pC4).floors.getD 0 dfltFloor).scaleZ = JSNum.nan := by
  have hfc : (sanitize pC4).floorCount = 1 := by
    norm_num [sanitize, toFiniteNumber, pC4, baseParams]
  have hfl : (buildTower exM pC4).floors.getD 0 dfltFloor = mkFloor exM (sanitize pC4) 0 :=
    buildTower_getD exM pC4 (by omega)
  have hpp : (sanitize pC4).profilePoints = [JSNum.nan] := by
    simp [sanitize, pC4, baseParams, clampProfilePoint, JSNum.jsMax, JSNum.jsMin]
  have hrad : (mkFloor exM (sanitize pC4) 0).radius = JSNum.nan := by
    rw [mkFloor_radius, hpp, sampleProfile_single]
    simp [JSNum.jsMul, JSNum.jsMax, JSNum.jsMin]
  refine ⟨by rw [hfl]; exact hrad, ?_, ?_⟩
  · rw [hfl, mkFloor_scaleX, hrad, jsMul_nan_left]
  · rw [hfl, mkFloor_scaleZ, hrad, jsMul_nan_left, jsMul_nan_left]
